import Mathlib

/-!
Verification development for the pyutils file/dataset processing pipeline
(`Processor` + `Importer` + `Reader`, files `pyprocess.py`, `pyimport.py`,
`pyread.py`).  The Python code is shallowly embedded: every function below is
translated from the source, with external collaborators (the filesystem,
subprocess calls, the uproot/awkward libraries, and the worker-completion
order of the thread pool) supplied as explicit oracle parameters.
-/

namespace Pyutils

/-- Python exception classes that appear on the control paths modelled here. -/
inductive PyErr where
  | nameError            -- NameError (an undefined variable in an f-string)
  | valueError           -- ValueError (e.g. awkward broadcast failure)
  | attributeError       -- AttributeError
  | indexError           -- IndexError (list index out of range)
  | typeError            -- TypeError (e.g. len(None))
  | openError            -- any exception raised while opening a file
  | calledProcessError   -- subprocess.CalledProcessError
  deriving DecidableEq, Repr

/-! ### String helpers (kernel-reducible models of the Python string methods) -/

/-- Characters removed by Python's `str.strip()` (the whitespace that occurs
in the modelled inputs). -/
def wsChar (c : Char) : Bool :=
  c = ' ' || c = '\t' || c = '\n' || c = '\r'

/-- `str.strip()`. -/
def pyStrip (s : String) : String :=
  ⟨((s.data.dropWhile wsChar).reverse.dropWhile wsChar).reverse⟩

/-- Split a character list at newlines (auxiliary for `pyLines`). -/
def splitNl : List Char → List Char → List String
  | [], acc => [⟨acc.reverse⟩]
  | c :: cs, acc =>
    if c = '\n' then ⟨acc.reverse⟩ :: splitNl cs [] else splitNl cs (c :: acc)

/-- Lines of a text blob, splitting at `'\n'`.  Models both iterating over an
open file (each line then passed through `strip()`) and `str.splitlines()`
(whose chunks carry no terminator); callers filter out blank lines in both
uses, which makes the trailing-empty-chunk difference immaterial. -/
def pyLines (s : String) : List String :=
  splitNl s.data []

/-- `str.startswith(p)`. -/
def pyStartsWith (s p : String) : Bool :=
  p.data.isPrefixOf s.data

/-- Does `sub` occur inside `s` (Python's `sub in s`)? -/
def listHasInfix (sub : List Char) : List Char → Bool
  | [] => sub.isEmpty
  | c :: cs => sub.isPrefixOf (c :: cs) || listHasInfix sub cs

/-- Python's substring test `sub in s`. -/
def pyContains (s sub : String) : Bool :=
  listHasInfix sub.data s.data

/-- Python truthiness of an optional string argument (`if file_name:`). -/
def pyTruthy : Option String → Bool
  | some s => !s.isEmpty
  | none => false

/-! ### Columnar data model (uproot trees, awkward arrays)

A column holds, per event, a variable-length list of values; a tree is a
sequence of named columns.  `uproot` objects are external, so their access
operations (`file[dir][tree]`, `tree.arrays`, `tree.keys`) are modelled as
plain lookups and filters over this data. -/

/-- One branch/column: per event, a jagged list of values. -/
abbrev Col := List (List Int)

/-- A TTree: named columns. -/
structure Tree where
  columns : List (String × Col)
  deriving DecidableEq, Repr

/-- `tree.arrays(filter_name=names)`: the columns whose name is requested,
in tree order (the claims use plain names, so matching is by name). -/
def Tree.arrays (t : Tree) (names : List String) : List (String × Col) :=
  t.columns.filter (fun c => names.contains c.1)

/-- `tree.keys()`. -/
def Tree.keys (t : Tree) : List String :=
  t.columns.map Prod.fst

/-- An opened ROOT file: directory name → tree name → tree. -/
abbrev TFile := List (String × List (String × Tree))

/-- The navigation `self.dir_name in file and self.tree_name in file[self.dir_name]`
followed by `file[self.dir_name][self.tree_name]` (pyimport.py line 57-59). -/
def findTree (f : TFile) (dir_name tree_name : String) : Option Tree :=
  match f.lookup dir_name with
  | none => none
  | some d => d.lookup tree_name

/-- An awkward array as produced by the importer: either a flat record of
columns or the zip of several named groups. -/
inductive Ak where
  | table (fields : List (String × Col))
  | zipped (groups : List (String × List (String × Col)))
  deriving DecidableEq, Repr

/-- Modelled external-library behaviour: `ak.zip(data)` (spec §4.2: groups
must have the same per-event element count or the combine fails).  Zipping
broadcasts every column of every group down to the innermost lists, so it
succeeds exactly when all columns share the same per-event element counts,
and raises `ValueError` otherwise. -/
def akZip (data : List (String × List (String × Col))) : Except PyErr Ak :=
  let profiles := ((data.map (fun g => g.2)).flatten).map (fun c => c.2.map List.length)
  match profiles with
  | [] => .ok (.zipped data)
  | p :: ps => if ps.all (fun q => q == p) then .ok (.zipped data) else .error .valueError

/-! ### Importer (`pyimport.py`, `Importer.import_branches`)

The branch specification is duck-typed in the source (`None` / `list` /
`dict` / the string `"*"`); here it is the corresponding sum type.  (The
source's final `else` arm, reached for any other runtime type, is not
representable and not needed by the claims.) -/

inductive BranchSpec where
  | none
  | flat (bs : List String)
  | grouped (gs : List (String × List String))
  | star
  deriving DecidableEq, Repr

/-- `Importer.import_branches` (pyimport.py lines 45-120).  `openRes` is the
outcome of `self.reader.read_file(self.file_name)` inside the `try` block.

Faithful details of the source:
* a missing `dir_name`/`tree_name` enters the `else` at line 109, whose log
  f-string references the undefined local `file_name`; the resulting
  `NameError` is caught at line 113 and the handler's own log line (114)
  references `file_name` again, so the call raises `NameError`;
* every exception inside the `try` (a failed open, the `ValueError` from
  `ak.zip` on mismatched groups) reaches the same broken handler and
  likewise surfaces as `NameError`;
* the `"*"` arm reads `self.ranches` (line 91), an attribute that does not
  exist, so the wildcard path raises `AttributeError`, which the broken
  handler again turns into `NameError`;
* the `finally` block closes the file on every path (no claim about it). -/
def import_branches (openRes : Except PyErr TFile) (dir_name tree_name : String)
    (branches : BranchSpec) : Except PyErr (Option Ak) :=
  match openRes with
  | .error _ => .error .nameError
  | .ok file =>
    match findTree file dir_name tree_name with
    | none => .error .nameError
    | some tree =>
      match branches with
      | .none => .ok none
      | .flat bs => .ok (some (.table (tree.arrays bs)))
      | .grouped gs =>
        match akZip (gs.map (fun g => (g.1, tree.arrays g.2))) with
        | .ok z => .ok (some z)
        | .error _ => .error .nameError
      | .star => .error .nameError

/-! ### Reader (`pyread.py`)

The remote path shells out twice per `_get_file` attempt (mdh resolution
then the local open); an attempt's outcome is supplied as an oracle
(`none` = success, `some e` = the exception it raised).  The `samweb
locate-file` call is likewise an oracle: `none` means the subprocess
raised, `some s` is its stripped stdout. -/

/-- Reader state relevant to the fallback logic. -/
structure ReaderCfg where
  location : String
  schema : String
  deriving DecidableEq, Repr

/-- `Reader._check_file_location` (pyread.py lines 66-89): locate the file
via samweb and update `self.location` when the reported location differs
from the configured one; a failing subprocess call raises. -/
def check_file_location (cfg : ReaderCfg) (locateOut : Option String) :
    Except PyErr ReaderCfg :=
  match locateOut with
  | none => .error .calledProcessError
  | some s =>
    if pyContains s "tape" && !(cfg.location == "tape") then
      .ok { cfg with location := "tape" }
    else if pyContains s "persistent" && !(cfg.location == "disk") then
      .ok { cfg with location := "disk" }
    else if pyContains s "scratch" && !(cfg.location == "scratch") then
      .ok { cfg with location := "scratch" }
    else
      .ok cfg

/-- Outcome of one `Reader._read_remote_file` call: the returned value or the
raised exception, the reader state afterwards, and how many `_get_file`
attempts (resolve+open) were made. -/
structure RemoteReadRun where
  result : Except PyErr Unit
  cfg : ReaderCfg
  attempts : Nat

/-- `Reader._read_remote_file` (pyread.py lines 91-120): try `_get_file`;
on any exception run `_check_file_location` (whose own exception, if any,
propagates with no retry) and try `_get_file` once more; a second failure
propagates.  `attempt1`/`attempt2` are the oracle outcomes of the two
possible `_get_file` calls (`none` = opened, `some e` = raised `e`). -/
def read_remote_file (cfg : ReaderCfg) (attempt1 : Option PyErr)
    (locateOut : Option String) (attempt2 : Option PyErr) : RemoteReadRun :=
  match attempt1 with
  | none => ⟨.ok (), cfg, 1⟩
  | some _ =>
    match check_file_location cfg locateOut with
    | .error e => ⟨.error e, cfg, 1⟩
    | .ok cfg' =>
      match attempt2 with
      | none => ⟨.ok (), cfg', 2⟩
      | some e2 => ⟨.error e2, cfg', 2⟩

/-! ### Parallel dispatch (`pyprocess.py`, `Processor._process_files_parallel`)

A worker either returns a value (possibly `None`) or raises.  The pool's
`as_completed` iteration order is nondeterministic, so it is supplied as an
explicit `order` parameter (a permutation of the file list in any real
run).  The model's second component records whether an executor (thread or
process pool) was constructed; the thread/process toggle does not affect
the collected results and is not modelled. -/

/-- Worker outcome: returned value (`val`) or raised exception (`exc`). -/
inductive WRes (α : Type) where
  | val (r : Option α)
  | exc (e : PyErr)
  deriving DecidableEq, Repr

/-- Did the worker raise? -/
def WRes.isExc : WRes α → Bool
  | .exc _ => true
  | _ => false

/-- Did the worker return `None`? -/
def WRes.isNoneVal : WRes α → Bool
  | .val none => true
  | _ => false

/-- Result of `_process_files_parallel`. -/
inductive PPP (α : Type) where
  | noResult
      -- empty file list: the function returns Python `None` (line 241)
  | single (r : Option α)
      -- single-file bypass: returns `[result]` (line 246)
  | singleRaised (e : PyErr)
      -- single-file bypass with the worker's exception propagating unwrapped
  | done (rs : List (Option α)) (completed failed : Nat)
      -- multi-file run that returned `results` with the final counters
  | raised (e : PyErr) (completed failed : Nat)
      -- multi-file run that re-raised a worker exception, with the counters
      -- at the moment of the re-raise
  deriving DecidableEq, Repr

/-- The `for future in as_completed(futures)` loop (pyprocess.py lines
282-313): a non-`None` result is appended and counted as completed, a `None`
result is counted as failed, and an exception increments the failed count
and is immediately re-raised (line 302), ending the loop. -/
def pppLoop (w : String → WRes α) : List String → List (Option α) → Nat → Nat → PPP α
  | [], rs, c, f => .done rs c f
  | x :: xs, rs, c, f =>
    match w x with
    | .val (some a) => pppLoop w xs (rs ++ [some a]) (c + 1) f
    | .val none => pppLoop w xs rs c (f + 1)
    | .exc e => .raised e c (f + 1)

/-- `Processor._process_files_parallel` (pyprocess.py lines 227-319).
Returns the run outcome and whether a pool was constructed. -/
def process_files_parallel (file_list : List String) (w : String → WRes α)
    (order : List String) : PPP α × Bool :=
  match file_list with
  | [] => (.noResult, false)
  | [x] =>
    (match w x with
     | .val r => (.single r, false)
     | .exc e => (.singleRaised e, false))
  | _ => (pppLoop w order [] 0 0, true)

/-! ### File-list resolution (`pyprocess.py`, `Processor.get_file_list`)

The filesystem and the two external executables (`samweb`, `mdh`) are
oracle fields of an `Env`.  Calls that open files or spawn subprocesses are
recorded in an effect trace (`os.path.exists` is recorded as a `stat`; it
neither opens a file nor spawns a process). -/

/-- An observable I/O side effect of the processing layer. -/
inductive Effect where
  | stat (p : String)    -- os.path.exists
  | openF (p : String)   -- open(path)
  | spawn                -- a subprocess call (samweb or mdh)
  deriving DecidableEq, Repr

/-- External world: filesystem plus the samweb/mdh command-line tools.
`samList d` is the stdout of `samweb list-files` for definition `d`
(`none` = the call raised); `mdhBatch b` is the stdout of one
`mdh print-url` batch call (`none` = non-zero exit, timeout, or other
exception). -/
structure Env where
  pathExists : String → Bool
  content : String → String
  samList : String → Option String
  mdhBatch : List String → Option String

/-- Result of `get_file_list`: the returned list, the I/O effects performed,
and whether the no-source error (line 130) was logged. -/
structure GFLResult where
  files : List String
  effects : List Effect
  cfgErrorLogged : Bool
  deriving DecidableEq, Repr

/-- Fixed-size batches of the file list (`file_list[i:i+batch_size]` for
`i in range(0, n, batch_size)`). -/
def chunks (k : Nat) : List String → List (List String)
  | [] => []
  | x :: xs => (x :: xs).take k :: chunks k (xs.drop (k - 1))
termination_by l => l.length
decreasing_by simp [List.length_drop]; omega

/-- Post-processing of mdh stdout:
`[line.strip() for line in proc.stdout.splitlines() if line.strip()]`. -/
def mdhLines (out : String) : List String :=
  ((pyLines out).map pyStrip).filter (fun l => !l.isEmpty)

/-- The tail of `get_file_list` after a file list has been built (pyprocess.py
lines 133-225): the empty-list bail-out, the remote prestaging block, and the
final return.  `batchOrder` gives the `as_completed` completion order of the
batch futures (indices into the batch list); a failed batch contributes no
files.  The `file_name` single-file arm inside the remote block (line 148)
is kept although it is unreachable: the `file_name` branch of
`get_file_list` always returns before this point. -/
def gflTail (use_remote : Bool) (env : Env) (file_name : Option String)
    (file_list : List String) (batch_size : Nat) (batchOrder : List Nat)
    (effs : List Effect) : GFLResult :=
  if file_list.isEmpty then ⟨[], effs, false⟩
  else if use_remote then
    if pyTruthy file_name then
      match env.mdhBatch [file_list.headD ""] with
      | none => ⟨[], effs ++ [.spawn], false⟩
      | some out => ⟨mdhLines out, effs ++ [.spawn], false⟩
    else
      let bs := chunks batch_size file_list
      let resolvedPerBatch := bs.map (fun b =>
        match env.mdhBatch b with
        | none => []
        | some out => mdhLines out)
      let resolved := (batchOrder.map (fun i => resolvedPerBatch.getD i [])).flatten
      ⟨resolved, effs ++ bs.map (fun _ => Effect.spawn), false⟩
  else ⟨file_list, effs, false⟩

/-- `Processor.get_file_list` (pyprocess.py lines 72-225).  Note that the
source performs no mutual-exclusivity check here: it dispatches on
Python truthiness in the order `file_name`, `file_list_path`, `defname`,
and only the all-absent case reaches the error log at line 130. -/
def get_file_list (use_remote : Bool) (env : Env)
    (file_name defname file_list_path : Option String)
    (batch_size : Nat) (batchOrder : List Nat) : GFLResult :=
  if pyTruthy file_name then
    let n := file_name.getD ""
    if use_remote &&
        (pyStartsWith n "root://" || pyStartsWith n "http://" || pyStartsWith n "dcap://") then
      ⟨[n], [], false⟩
    else if env.pathExists n then ⟨[n], [.stat n], false⟩
    else ⟨[], [.stat n], false⟩
  else if pyTruthy file_list_path then
    let p := file_list_path.getD ""
    if !env.pathExists p then ⟨[], [.stat p], false⟩
    else
      let fl := ((pyLines (env.content p)).map pyStrip).filter (fun l => !l.isEmpty)
      gflTail use_remote env file_name fl batch_size batchOrder [.stat p, .openF p]
  else if pyTruthy defname then
    match env.samList (defname.getD "") with
    | none => ⟨[], [.spawn], false⟩
    | some out =>
      gflTail use_remote env file_name ((pyLines out).filter (fun l => !l.isEmpty))
        batch_size batchOrder [.spawn]
  else ⟨[], [], true⟩

/-! ### Orchestration (`pyprocess.py`, `Processor.process_data`) -/

/-- The custom worker argument as the source validates it: Python only sees
an object, checks `callable(...)` and the arity of its signature, and then
uses it as a unary function. -/
structure Custom (α : Type) where
  callableOk : Bool
  arity : Nat
  fn : String → WRes α

/-- A value returned by `process_data`: Python `None`, a single object
(worker result or concatenated array), or the raw per-file result list of
the custom-worker path. -/
inductive PDOut (α : Type) where
  | pyNone
  | obj (a : α)
  | objList (rs : List (Option α))
  deriving DecidableEq, Repr

/-- One `process_data` call: its value or raised exception, the I/O effects
of file-list resolution (worker-internal I/O happens after these and is not
traced), whether a pool was constructed, and whether a pre-I/O
configuration error was logged. -/
structure PDRun (α : Type) where
  res : Except PyErr (PDOut α)
  effects : List Effect
  poolUsed : Bool
  cfgError : Bool

/-- Aggregation step of `process_data` (lines 390-407): with the default
worker the results are concatenated (`concat` models `ak.concatenate`,
whose exception propagates); with a custom worker the raw list is
returned. -/
def pdAggregate (customProvided : Bool) (concat : List (Option α) → Except PyErr α)
    (rs : List (Option α)) (effs : List Effect) (pu : Bool) : PDRun α :=
  if customProvided then ⟨.ok (.objList rs), effs, pu, false⟩
  else
    match concat rs with
    | .ok a => ⟨.ok (.obj a), effs, pu, false⟩
    | .error e => ⟨.error e, effs, pu, false⟩

/-- The body of `process_data` after validation (lines 369-407): resolve the
file list, then either the single-file direct call (`file_list[0]` raises
`IndexError` when the resolved list is empty) or the parallel run followed
by aggregation.  When `_process_files_parallel` returns `None` (empty
list), the subsequent `len(results)` raises `TypeError`. -/
def pdMain (use_remote : Bool) (env : Env)
    (file_name file_list_path defname : Option String)
    (customProvided : Bool) (w : String → WRes α)
    (concat : List (Option α) → Except PyErr α)
    (order : List String) (batch_size : Nat) (batchOrder : List Nat) : PDRun α :=
  let g := get_file_list use_remote env file_name defname file_list_path batch_size batchOrder
  if pyTruthy file_name then
    match g.files with
    | [] => ⟨.error .indexError, g.effects, false, false⟩
    | x :: _ =>
      match w x with
      | .val (some a) => ⟨.ok (.obj a), g.effects, false, false⟩
      | .val none => ⟨.ok .pyNone, g.effects, false, false⟩
      | .exc e => ⟨.error e, g.effects, false, false⟩
  else
    match process_files_parallel g.files w order with
    | (.noResult, pu) => ⟨.error .typeError, g.effects, pu, false⟩
    | (.singleRaised e, pu) => ⟨.error e, g.effects, pu, false⟩
    | (.raised e _ _, pu) => ⟨.error e, g.effects, pu, false⟩
    | (.single r, pu) => pdAggregate customProvided concat [r] g.effects pu
    | (.done rs _ _, pu) => pdAggregate customProvided concat rs g.effects pu

/-- `Processor.process_data` (pyprocess.py lines 321-407).  The pre-I/O
checks, in source order: exactly one of `file_name`/`defname`/
`file_list_path` is not `None` (line 340, `is not None`, not truthiness);
then, when a custom worker is supplied, `callable` and unary-arity checks.
Each failure logs an error and returns `None` before any I/O.  The default
worker (a `functools.partial` over the module-level `_worker_func`) is
abstracted as the `defaultWorker` parameter; no claim evaluates its body
through this function. -/
def process_data (use_remote : Bool) (env : Env)
    (file_name file_list_path defname : Option String)
    (custom : Option (Custom α)) (defaultWorker : String → WRes α)
    (concat : List (Option α) → Except PyErr α)
    (order : List String) (batch_size : Nat) (batchOrder : List Nat) : PDRun α :=
  let file_sources := ([file_name, defname, file_list_path].filter Option.isSome).length
  if file_sources ≠ 1 then ⟨.ok .pyNone, [], false, true⟩
  else
    match custom with
    | some cu =>
      if !cu.callableOk then ⟨.ok .pyNone, [], false, true⟩
      else if cu.arity ≠ 1 then ⟨.ok .pyNone, [], false, true⟩
      else pdMain use_remote env file_name file_list_path defname true cu.fn concat
        order batch_size batchOrder
    | none =>
      pdMain use_remote env file_name file_list_path defname false defaultWorker concat
        order batch_size batchOrder

/-! ### Concrete fixtures for witnesses and counterexamples -/

/-- A tree with the three columns of spec Scenario D. -/
def abcTree : Tree :=
  ⟨[("a", [[1], [2, 3]]), ("b", [[4], [5, 6]]), ("c", [[7], [8, 9]])]⟩

/-- A file holding `abcTree` at the default tree path. -/
def abcFile : TFile := [("EventNtuple", [("ntuple", abcTree)])]

/-- A tree whose two columns have mismatched per-event element counts. -/
def mmTree : Tree := ⟨[("x", [[1, 2]]), ("y", [[10, 20, 30]])]⟩

/-- A file holding `mmTree` at the default tree path. -/
def mmFile : TFile := [("EventNtuple", [("ntuple", mmTree)])]

/-- A filesystem/commands environment with `a.dat` and `list.txt` present,
the latter holding the Scenario A file list. -/
def cEnv : Env where
  pathExists := fun p => p == "a.dat" || p == "list.txt"
  content := fun p => if p == "list.txt" then "a.dat\n\nb.dat\n" else ""
  samList := fun _ => none
  mdhBatch := fun _ => none

/-- An environment in which no local path exists. -/
def cEnvMissing : Env where
  pathExists := fun _ => false
  content := fun _ => ""
  samList := fun _ => none
  mdhBatch := fun _ => none

/-- A worker that succeeds on every file with the value 0. -/
def cWorker : String → WRes Nat := fun _ => .val (some 0)

/-- A worker that raises on `"a"` and returns a value elsewhere. -/
def c2worker : String → WRes Nat :=
  fun s => if s = "a" then .exc .valueError else .val (some 0)

/-- A worker that returns `None` on `"b"` and a value elsewhere. -/
def c10worker : String → WRes Nat :=
  fun s => if s = "b" then .val none else .val (some 0)

/-- A trivial stand-in for `ak.concatenate` over `Nat` results. -/
def cConcat : List (Option Nat) → Except PyErr Nat := fun rs => .ok rs.length

/-! ### C1 — missing tree path -/

/-- C1: whenever the file opens but the configured `dir_name`/`tree_name`
path is absent, `import_branches` does NOT return `None`: the `else` branch's
log f-string references the undefined local `file_name`, the resulting
`NameError` is caught by the blanket handler, whose own log line repeats the
slip, so the call raises `NameError`.  (The explicit `return None` two lines
below the broken log shows the intended behaviour is the spec's.) -/
theorem c1_missing_tree_raises (file : TFile) (d t : String) (spec : BranchSpec)
    (h : findTree file d t = none) :
    import_branches (.ok file) d t spec = .error .nameError := by
  simp [import_branches, h]

/-- Witness for `c1_missing_tree_raises` at a concrete file lacking the
`EventNtuple` directory. -/
theorem c1_missing_tree_raises_witness :
    findTree [("OtherDir", [("ntuple", abcTree)])] "EventNtuple" "ntuple" = none ∧
    import_branches (.ok [("OtherDir", [("ntuple", abcTree)])]) "EventNtuple" "ntuple"
      (.flat ["a"]) = .error .nameError :=
  ⟨rfl, c1_missing_tree_raises _ _ _ _ rfl⟩

/-! ### C4 — grouped spec with mismatched per-event element counts -/

/-- C4 counterexample: on a grouped spec whose two groups have mismatched
per-event element counts, the zip does fail (`ValueError`), but
`import_branches` does not surface any schema-mismatch failure: the blanket
`except` handler swallows it, and the handler's broken log line makes the
call raise `NameError` instead.  No `SchemaMismatchError` exists in the
code. -/
theorem c4_no_schema_error_cex :
    akZip [("g1", mmTree.arrays ["x"]), ("g2", mmTree.arrays ["y"])] = .error .valueError ∧
    import_branches (.ok mmFile) "EventNtuple" "ntuple"
      (.grouped [("g1", ["x"]), ("g2", ["y"])]) = .error .nameError ∧
    PyErr.nameError ≠ PyErr.valueError :=
  ⟨rfl, rfl, by decide⟩

/-- C4 (amended): whenever the grouped zip raises, `import_branches` raises
`NameError` (the handler slip) — so the call fails and no partial result is
returned, but not with a distinguished schema-mismatch error. -/
theorem c4_mismatch_raises_nameerror (file : TFile) (d t : String) (tree : Tree)
    (gs : List (String × List String)) (e : PyErr)
    (hft : findTree file d t = some tree)
    (hz : akZip (gs.map (fun g => (g.1, tree.arrays g.2))) = .error e) :
    import_branches (.ok file) d t (.grouped gs) = .error .nameError := by
  simp [import_branches, hft, hz]

/-- Witness for `c4_mismatch_raises_nameerror` on the mismatched fixture. -/
theorem c4_mismatch_raises_nameerror_witness :
    import_branches (.ok mmFile) "EventNtuple" "ntuple"
      (.grouped [("g1", ["x"]), ("g2", ["y"])]) = .error .nameError :=
  c4_mismatch_raises_nameerror mmFile "EventNtuple" "ntuple" mmTree
    [("g1", ["x"]), ("g2", ["y"])] .valueError rfl rfl

/-! ### C6 — wildcard branch specification -/

/-- Requesting every key of a tree returns every column. -/
theorem Tree.arrays_keys (tr : Tree) : tr.arrays tr.keys = tr.columns := by
  unfold Tree.arrays Tree.keys
  apply List.filter_eq_self.mpr
  intro c hc
  exact List.elem_eq_true_of_mem (List.mem_map_of_mem Prod.fst hc)

/-- C6: the wildcard `"*"` spec does not reproduce the explicit-list import.
The `"*"` arm first rebuilds `self.branches` from `tree.keys()` but then
passes `self.ranches` (a typo for `self.branches`, pyimport.py line 91) to
`tree.arrays`; the `AttributeError` is caught by the blanket handler whose
broken log line raises `NameError`.  The explicit list of all keys, by
contrast, succeeds and returns every column. -/
theorem c6_star_raises (file : TFile) (d t : String) (tree : Tree)
    (hft : findTree file d t = some tree) :
    import_branches (.ok file) d t .star = .error .nameError ∧
    import_branches (.ok file) d t (.flat tree.keys) =
      .ok (some (.table tree.columns)) := by
  constructor
  · simp [import_branches, hft]
  · simp [import_branches, hft, Tree.arrays_keys]

/-- Witness for `c6_star_raises` on the `{a, b, c}` tree of Scenario D. -/
theorem c6_star_raises_witness :
    abcTree.keys = ["a", "b", "c"] ∧
    import_branches (.ok abcFile) "EventNtuple" "ntuple" .star = .error .nameError ∧
    import_branches (.ok abcFile) "EventNtuple" "ntuple" (.flat abcTree.keys) =
      .ok (some (.table abcTree.columns)) :=
  ⟨rfl, (c6_star_raises abcFile "EventNtuple" "ntuple" abcTree rfl).1,
    (c6_star_raises abcFile "EventNtuple" "ntuple" abcTree rfl).2⟩

/-! ### C7 — remote-read retry policy -/

/-- A successful `samweb locate-file` call never raises in the fallback
helper: every arm of the `if` chain returns (updating the location or not). -/
theorem check_file_location_some_ok (cfg : ReaderCfg) (s : String) :
    ∃ cfg', check_file_location cfg (some s) = .ok cfg' := by
  simp only [check_file_location]
  split
  · exact ⟨_, rfl⟩
  · split
    · exact ⟨_, rfl⟩
    · split
      · exact ⟨_, rfl⟩
      · exact ⟨_, rfl⟩

/-- C7 counterexample: an initial resolve-and-open failure does not always
lead to a retry.  When the `samweb locate-file` fallback call itself raises,
its exception propagates out of the bare `except:` block (pyread.py line
114) after a single `_get_file` attempt — the second attempt never
happens. -/
theorem c7_no_retry_on_locate_failure_cex :
    read_remote_file ⟨"tape", "root"⟩ (some .openError) none (some .openError) =
      ⟨.error .calledProcessError, ⟨"tape", "root"⟩, 1⟩ ∧
    (1 : Nat) ≠ 2 :=
  ⟨rfl, by decide⟩

/-- C7 (amended): `_read_remote_file` makes at most two resolve-and-open
attempts; after an initial failure it queries the file-location service and
(i) if that query raises, the exception propagates with no retry (one
attempt total), (ii) if it succeeds, there is exactly one retry — the
location having been updated only when the reported location differs from
the configured one — and (iii) a failing retry surfaces the retry's own
exception (no silent success). -/
theorem c7_retry_policy :
    (∀ (cfg : ReaderCfg) (a1 : Option PyErr) (lo : Option String) (a2 : Option PyErr),
        (read_remote_file cfg a1 lo a2).attempts ≤ 2) ∧
    (∀ (cfg : ReaderCfg) (e1 : PyErr) (a2 : Option PyErr),
        read_remote_file cfg (some e1) none a2 =
          ⟨.error .calledProcessError, cfg, 1⟩) ∧
    (∀ (cfg : ReaderCfg) (e1 : PyErr) (s : String) (a2 : Option PyErr),
        (read_remote_file cfg (some e1) (some s) a2).attempts = 2) ∧
    (∀ (cfg : ReaderCfg) (e1 : PyErr) (s : String) (e2 : PyErr),
        (read_remote_file cfg (some e1) (some s) (some e2)).result = .error e2) := by
  refine ⟨?_, ?_, ?_, ?_⟩
  · intro cfg a1 lo a2
    cases a1 with
    | none => simp [read_remote_file]
    | some e1 =>
      cases lo with
      | none => simp [read_remote_file, check_file_location]
      | some s =>
        obtain ⟨cfg', h⟩ := check_file_location_some_ok cfg s
        cases a2 <;> simp [read_remote_file, h]
  · intro cfg e1 a2
    rfl
  · intro cfg e1 s a2
    obtain ⟨cfg', h⟩ := check_file_location_some_ok cfg s
    cases a2 <;> simp [read_remote_file, h]
  · intro cfg e1 s e2
    obtain ⟨cfg', h⟩ := check_file_location_some_ok cfg s
    simp [read_remote_file, h]

/-! ### Collection-loop lemmas shared by the `_process_files_parallel` claims -/

/-- Bookkeeping of the collection loop on a run that returns normally: every
processed future bumps exactly one counter, `None` results are counted as
failed, and only non-`None` results are appended. -/
theorem pppLoop_done_spec (w : String → WRes α) :
    ∀ (order : List String) (rs : List (Option α)) (c f : Nat)
      (rs' : List (Option α)) (c' f' : Nat),
      pppLoop w order rs c f = .done rs' c' f' →
      c' + f' = c + f + order.length ∧
      f' = f + (order.filter (fun x => (w x).isNoneVal)).length ∧
      rs'.length + c = rs.length + c' ∧
      ((∀ r ∈ rs, r.isSome = true) → (∀ r ∈ rs', r.isSome = true)) := by
  intro order
  induction order with
  | nil =>
    intro rs c f rs' c' f' h
    simp only [pppLoop, PPP.done.injEq] at h
    obtain ⟨h1, h2, h3⟩ := h
    subst h1; subst h2; subst h3
    simp
  | cons x xs ih =>
    intro rs c f rs' c' f' h
    simp only [pppLoop] at h
    cases hw : w x with
    | val r =>
      cases r with
      | some a =>
        have hpred : (fun y => (w y).isNoneVal) x = false := by
          simp [hw, WRes.isNoneVal]
        rw [hw] at h
        obtain ⟨h1, h2, h3, h4⟩ := ih (rs ++ [some a]) (c + 1) f rs' c' f' h
        refine ⟨?_, ?_, ?_, ?_⟩
        · simp only [List.length_cons]
          omega
        · simp only [List.filter_cons, hpred, Bool.false_eq_true, if_false]
          exact h2
        · simp only [List.length_append, List.length_cons, List.length_nil] at h3
          omega
        · intro hrs
          apply h4
          intro r hr
          rcases List.mem_append.mp hr with hr | hr
          · exact hrs r hr
          · simp at hr; subst hr; rfl
      | none =>
        have hpred : (fun y => (w y).isNoneVal) x = true := by
          simp [hw, WRes.isNoneVal]
        rw [hw] at h
        obtain ⟨h1, h2, h3, h4⟩ := ih rs c (f + 1) rs' c' f' h
        refine ⟨?_, ?_, h3, h4⟩
        · simp only [List.length_cons]
          omega
        · simp only [List.filter_cons, hpred, if_true, List.length_cons]
          omega
    | exc e =>
      rw [hw] at h
      simp at h

/-- Bookkeeping of the collection loop on a run that re-raises: the counters
at the re-raise cover exactly the futures processed up to and including the
first raising one, which is strictly inside the completion order. -/
theorem pppLoop_raised_spec (w : String → WRes α) :
    ∀ (order : List String) (rs : List (Option α)) (c f : Nat)
      (e : PyErr) (c' f' : Nat),
      pppLoop w order rs c f = .raised e c' f' →
      c' + f' = c + f + (order.takeWhile (fun x => !(w x).isExc)).length + 1 ∧
      (order.takeWhile (fun x => !(w x).isExc)).length < order.length := by
  intro order
  induction order with
  | nil =>
    intro rs c f e c' f' h
    simp [pppLoop] at h
  | cons x xs ih =>
    intro rs c f e c' f' h
    simp only [pppLoop] at h
    cases hw : w x with
    | val r =>
      have hx : (fun y => !(w y).isExc) x = true := by
        simp [hw, WRes.isExc]
      cases r with
      | some a =>
        rw [hw] at h
        obtain ⟨h1, h2⟩ := ih (rs ++ [some a]) (c + 1) f e c' f' h
        refine ⟨?_, ?_⟩ <;> simp [List.takeWhile_cons, hx] <;> omega
      | none =>
        rw [hw] at h
        obtain ⟨h1, h2⟩ := ih rs c (f + 1) e c' f' h
        refine ⟨?_, ?_⟩ <;> simp [List.takeWhile_cons, hx] <;> omega
    | exc e0 =>
      rw [hw] at h
      simp only [PPP.raised.injEq] at h
      obtain ⟨h1, h2, h3⟩ := h
      subst h1; subst h2; subst h3
      have hx : (fun y => !(w y).isExc) x = false := by
        simp [hw, WRes.isExc]
      simp [List.takeWhile_cons, hx]
      omega

/-! ### C2 — partial-failure accounting in `_process_files_parallel` -/

/-- C2 counterexample: two files, the worker raising on exactly one of them
(`k = 1`, `0 < k < N = 2`).  With the raising future first in completion
order, the exception is re-raised immediately (pyprocess.py line 302):
the run ends with `completed = 0`, `failed = 1`, so `completed + failed = 1
≠ 2` — the second work unit's result is never collected or counted. -/
theorem c2_immediate_reraise_cex :
    (process_files_parallel ["a", "b"] c2worker ["a", "b"]).1 =
      .raised .valueError 0 1 ∧
    (["a", "b"].filter (fun x => (c2worker x).isExc)).length = 1 ∧
    0 + 1 ≠ (["a", "b"] : List String).length :=
  ⟨rfl, rfl, by decide⟩

/-- C2 (amended): in a multi-file run the first worker exception encountered
in completion order is re-raised at once; at that moment
`completed + failed` equals the number of futures processed so far (the
exception-free completion-order prefix plus the raising one), which is at
most `N` and can be smaller.  `completed + failed = N` holds exactly for
runs that return without re-raising (`None` results counted as failed). -/
theorem c2_reraise_counts :
    (∀ (α : Type) (fl : List String) (w : String → WRes α) (order : List String)
        (e : PyErr) (c f : Nat), order.Perm fl →
        (process_files_parallel fl w order).1 = .raised e c f →
        c + f = (order.takeWhile (fun x => !(w x).isExc)).length + 1 ∧
        c + f ≤ fl.length) ∧
    (∀ (α : Type) (fl : List String) (w : String → WRes α) (order : List String)
        (rs : List (Option α)) (c f : Nat), order.Perm fl →
        (process_files_parallel fl w order).1 = .done rs c f →
        c + f = fl.length) := by
  constructor
  · intro α fl w order e c f hperm h
    match fl with
    | [] => simp [process_files_parallel] at h
    | [x] =>
      rw [process_files_parallel] at h
      cases hw : w x <;> rw [hw] at h <;> simp at h
    | x :: y :: t =>
      rw [show (process_files_parallel (x :: y :: t) w order).1 =
        pppLoop w order [] 0 0 from rfl] at h
      obtain ⟨h1, h2⟩ := pppLoop_raised_spec w order [] 0 0 e c f h
      have hlen := hperm.length_eq
      exact ⟨by omega, by omega⟩
  · intro α fl w order rs c f hperm h
    match fl with
    | [] => simp [process_files_parallel] at h
    | [x] =>
      rw [process_files_parallel] at h
      cases hw : w x <;> rw [hw] at h <;> simp at h
    | x :: y :: t =>
      rw [show (process_files_parallel (x :: y :: t) w order).1 =
        pppLoop w order [] 0 0 from rfl] at h
      obtain ⟨h1, _, _, _⟩ := pppLoop_done_spec w order [] 0 0 rs c f h
      have hlen := hperm.length_eq
      omega

/-- Witness for `c2_reraise_counts` on the two-file fixture: the re-raise
branch at the concrete run of `c2_immediate_reraise_cex`'s input, and the
normal-return branch on a run with no exception. -/
theorem c2_reraise_counts_witness :
    ((0 + 1 = (["a", "b"].takeWhile (fun x => !(c2worker x).isExc)).length + 1 ∧
       0 + 1 ≤ (["a", "b"] : List String).length) ∧
      2 + 0 = (["c", "d"] : List String).length) :=
  ⟨c2_reraise_counts.1 Nat ["a", "b"] c2worker ["a", "b"] .valueError 0 1
      (List.Perm.refl _) rfl,
    c2_reraise_counts.2 Nat ["c", "d"] c2worker ["d", "c"] [some 0, some 0] 2 0
      (List.Perm.swap _ _ _) rfl⟩

/-! ### C5 — single-file bypass in `_process_files_parallel` -/

/-- C5: on a one-element file list the worker is invoked synchronously and
its outcome is returned directly — the returned list is `[result]` for a
returning worker and the worker's exception propagates unwrapped — and no
thread or process pool is constructed (second component `false`). -/
theorem c5_single_file_bypass (α : Type) (w : String → WRes α) (x : String)
    (order : List String) :
    process_files_parallel [x] w order =
      ((match w x with
        | .val r => PPP.single r
        | .exc e => PPP.singleRaised e), false) := by
  cases hw : w x <;> simp [process_files_parallel, hw]

/-! ### C10 — `None` results never reach the returned multi-file list -/

/-- C10: a multi-file run that returns without raising returns only
non-`None` results (`completed` counts exactly those), a worker's `None` is
counted in `failed` and excluded, while the single-file bypass returns
`[None]` as-is. -/
theorem c10_none_results :
    (∀ (α : Type) (fl : List String) (w : String → WRes α) (order : List String)
        (rs : List (Option α)) (c f : Nat),
        (process_files_parallel fl w order).1 = .done rs c f →
        (∀ r ∈ rs, r.isSome = true) ∧ c = rs.length ∧
        f = (order.filter (fun x => (w x).isNoneVal)).length) ∧
    (∀ (α : Type) (w : String → WRes α) (x : String) (order : List String),
        w x = .val none →
        (process_files_parallel [x] w order).1 = .single none) := by
  constructor
  · intro α fl w order rs c f h
    match fl with
    | [] => simp [process_files_parallel] at h
    | [x] =>
      rw [process_files_parallel] at h
      cases hw : w x <;> rw [hw] at h <;> simp at h
    | x :: y :: t =>
      rw [show (process_files_parallel (x :: y :: t) w order).1 =
        pppLoop w order [] 0 0 from rfl] at h
      obtain ⟨h1, h2, h3, h4⟩ := pppLoop_done_spec w order [] 0 0 rs c f h
      refine ⟨h4 (by intro r hr; simp at hr), by simp at h3; omega, by omega⟩
  · intro α w x order hw
    simp [process_files_parallel, hw]

/-- Witness for `c10_none_results`: a three-file run whose worker returns
`None` on `"b"`, and the single-file bypass on `"b"` itself. -/
theorem c10_none_results_witness :
    ((∀ r ∈ ([some 0, some 0] : List (Option Nat)), r.isSome = true) ∧
      2 = ([some 0, some 0] : List (Option Nat)).length ∧
      1 = ((["a", "b", "c"].filter (fun x => (c10worker x).isNoneVal)).length)) ∧
    (process_files_parallel ["b"] c10worker ["b"]).1 = .single none :=
  ⟨c10_none_results.1 Nat ["a", "b", "c"] c10worker ["a", "b", "c"]
      [some 0, some 0] 2 1 rfl,
    c10_none_results.2 Nat c10worker "b" ["b"] rfl⟩

/-! ### C3 — mutual exclusivity of the file-source arguments -/

/-- C3 counterexample: `get_file_list` does not enforce mutual exclusivity.
With both `file_name` and `defname` non-null (and the file present) the call
proceeds — it returns the one-element list from the higher-priority
`file_name` branch, logging no configuration error — instead of failing
before I/O as the claim requires. -/
theorem c3_two_sources_proceed_cex :
    (some "a.dat" : Option String).isSome = true ∧
    (some "dataset.def" : Option String).isSome = true ∧
    get_file_list false cEnv (some "a.dat") (some "dataset.def") none 50 [] =
      ⟨["a.dat"], [.stat "a.dat"], false⟩ :=
  ⟨rfl, rfl, rfl⟩

/-- C3 (amended): `process_data` does enforce the exactly-one-source rule
(counting `is not None`) and returns its error with no I/O effect;
`get_file_list` only errors when all three sources are absent (again with
no I/O), and with two or more sources supplied it proceeds using the
highest-priority truthy one — `file_name` over `file_list_path` over
`defname` — ignoring the extras. -/
theorem c3_exclusivity :
    (∀ (α : Type) (ur : Bool) (env : Env) (fn flp dn : Option String)
        (cu : Option (Custom α)) (dw : String → WRes α)
        (concat : List (Option α) → Except PyErr α)
        (order : List String) (bsz : Nat) (bo : List Nat),
        ([fn, dn, flp].filter Option.isSome).length ≠ 1 →
        process_data ur env fn flp dn cu dw concat order bsz bo =
          ⟨.ok .pyNone, [], false, true⟩) ∧
    (∀ (ur : Bool) (env : Env) (fn dn flp : Option String) (bsz : Nat) (bo : List Nat),
        pyTruthy fn = false → pyTruthy flp = false → pyTruthy dn = false →
        get_file_list ur env fn dn flp bsz bo = ⟨[], [], true⟩) ∧
    (∀ (ur : Bool) (env : Env) (fn dn flp : Option String) (bsz : Nat) (bo : List Nat),
        pyTruthy fn = true →
        get_file_list ur env fn dn flp bsz bo =
          get_file_list ur env fn none none bsz bo) ∧
    (∀ (ur : Bool) (env : Env) (fn dn flp : Option String) (bsz : Nat) (bo : List Nat),
        pyTruthy fn = false → pyTruthy flp = true →
        get_file_list ur env fn dn flp bsz bo =
          get_file_list ur env fn none flp bsz bo) := by
  refine ⟨?_, ?_, ?_, ?_⟩
  · intro α ur env fn flp dn cu dw concat order bsz bo h
    simp only [process_data]
    split
    · rfl
    · next hcond => exact (hcond h).elim
  · intro ur env fn dn flp bsz bo h1 h2 h3
    simp [get_file_list, h1, h2, h3]
  · intro ur env fn dn flp bsz bo h
    simp [get_file_list, h]
  · intro ur env fn dn flp bsz bo h1 h2
    simp [get_file_list, h1, h2]

/-- Witness for `c3_exclusivity` at concrete inputs: two sources rejected by
`process_data`, zero sources rejected by `get_file_list`, and the two
priority equations at two-source calls of `get_file_list`. -/
theorem c3_exclusivity_witness :
    process_data false cEnv (some "a.dat") (some "list.txt") none
        (none : Option (Custom Nat)) cWorker cConcat [] 50 [] =
      ⟨.ok .pyNone, [], false, true⟩ ∧
    get_file_list false cEnv none none none 50 [] = ⟨[], [], true⟩ ∧
    get_file_list false cEnv (some "a.dat") (some "d.def") none 50 [] =
      get_file_list false cEnv (some "a.dat") none none 50 [] ∧
    get_file_list false cEnv none (some "d.def") (some "list.txt") 50 [] =
      get_file_list false cEnv none none (some "list.txt") 50 [] :=
  ⟨c3_exclusivity.1 Nat false cEnv (some "a.dat") (some "list.txt") none none
      cWorker cConcat [] 50 [] (by decide),
    c3_exclusivity.2.1 false cEnv none none none 50 [] rfl rfl rfl,
    c3_exclusivity.2.2.1 false cEnv (some "a.dat") (some "d.def") none 50 [] rfl,
    c3_exclusivity.2.2.2 false cEnv none (some "d.def") (some "list.txt") 50 [] rfl rfl⟩

/-! ### C8 — single missing local file in `process_data` -/

/-- C8 counterexample: with a single nonexistent local file, `get_file_list`
logs a warning and returns `[]`, and `process_data` then evaluates
`file_list[0]` (pyprocess.py line 378), raising `IndexError` — not an
open-error-class failure (no open is ever attempted).  No pool is
constructed. -/
theorem c8_indexerror_cex :
    process_data false cEnvMissing (some "x.dat") none none
        (none : Option (Custom Nat)) cWorker cConcat [] 50 [] =
      ⟨.error .indexError, [.stat "x.dat"], false, false⟩ ∧
    PyErr.indexError ≠ PyErr.openError :=
  ⟨rfl, by decide⟩

/-- C8 (amended): in local mode with a single nonexistent `file_name`,
`process_data` raises `IndexError` from indexing the empty resolved file
list; the only I/O is the existence check, and no pool is constructed. -/
theorem c8_missing_single_file (α : Type) (env : Env) (p : String)
    (dw : String → WRes α) (concat : List (Option α) → Except PyErr α)
    (order : List String) (bsz : Nat) (bo : List Nat)
    (hp : pyTruthy (some p) = true)
    (hex : env.pathExists p = false) :
    process_data false env (some p) none none none dw concat order bsz bo =
      ⟨.error .indexError, [.stat p], false, false⟩ := by
  simp only [process_data]
  split
  · next hcond => exact absurd rfl hcond
  · simp [pdMain, get_file_list, hp, hex]

/-- Witness for `c8_missing_single_file` on an environment with no local
files. -/
theorem c8_missing_single_file_witness :
    process_data false cEnvMissing (some "y.dat") none none
        (none : Option (Custom Nat)) cWorker cConcat [] 50 [] =
      ⟨.error .indexError, [.stat "y.dat"], false, false⟩ :=
  c8_missing_single_file Nat cEnvMissing "y.dat" cWorker cConcat [] 50 [] rfl rfl

/-! ### C9 — file-list text parsing -/

/-- C9: reading a file-list file whose content is `"a.dat\n\nb.dat\n"`
returns exactly `["a.dat", "b.dat"]` — each line is stripped, blank lines
are dropped, and order is preserved (pyprocess.py line 116). -/
theorem c9_blank_lines_dropped (env : Env) (q : String)
    (hq : pyTruthy (some q) = true)
    (hex : env.pathExists q = true)
    (hc : env.content q = "a.dat\n\nb.dat\n") :
    get_file_list false env none none (some q) 50 [] =
      ⟨["a.dat", "b.dat"], [.stat q, .openF q], false⟩ := by
  have hfl : ((pyLines (env.content q)).map pyStrip).filter (fun l => !l.isEmpty) =
      ["a.dat", "b.dat"] := by
    rw [hc]
    rfl
  simp [get_file_list, gflTail, hq, hex, hfl,
    show pyTruthy (none : Option String) = false from rfl]

/-- Witness for `c9_blank_lines_dropped` on the concrete `list.txt`
environment. -/
theorem c9_blank_lines_dropped_witness :
    get_file_list false cEnv none none (some "list.txt") 50 [] =
      ⟨["a.dat", "b.dat"], [.stat "list.txt", .openF "list.txt"], false⟩ :=
  c9_blank_lines_dropped cEnv "list.txt" rfl rfl rfl

end Pyutils
